import Mathlib

/-!
Verification development for the story-tts-processing worker (src/main.py).

The embedding below translates the job-processing state machine of
src/main.py into Lean: the SNS envelope normalizer and field validation of
process_job, the DynamoDB task-status guard (is_task_completed and
update_task_status), the subtitle fallback engine (make_subtitles,
naive_sentence_srt, write_srt), the orchestration of process_job, and one
iteration of worker_loop. External collaborators (Kokoro synthesis, aeneas
alignment, S3 uploads, json.loads, the wall clock) are modelled as inputs in
an Env record; stateful DynamoDB access is explicit state passing over an
association-list store; calls to collaborators are recorded in an event
trace. Seconds values (audio durations, cue times) are modelled as rationals.
JSON values appearing inside a message object are modelled by the scalar
cases (string, integer, boolean, null); nested payloads are reached through
the modelled json.loads function, which is how every claim uses them.
-/

/-- Scalar JSON value stored under a key of a message object. -/
inductive JVal where
  | str (s : String)
  | num (n : Int)
  | bool (b : Bool)
  | null
deriving DecidableEq, Repr

/-- A decoded JSON object (a Python dict), as an association list with the
dict property that lookups return the first (unique) binding of a key. -/
abbrev Payload := List (String × JVal)

/-- Python `k in d` for a dict. -/
def hasKey (j : Payload) (k : String) : Bool :=
  j.any (fun kv => kv.1 == k)

/-- Python truthiness `bool(v)` of a scalar JSON value. -/
def jtruthy : JVal → Bool
  | JVal.str s => s ≠ ""
  | JVal.num n => n ≠ 0
  | JVal.bool b => b
  | JVal.null => false

/-- Python `\s` for the ASCII range, as used by `re.split` and `str.strip`. -/
def pyIsSpace (c : Char) : Bool :=
  c == ' ' || c == '\t' || c == '\n' || c == '\r' || c == '\x0b' || c == '\x0c'

/-- Python `str.strip()`: drop whitespace from both ends. -/
def pyStrip (s : String) : String :=
  String.mk (((s.toList.dropWhile pyIsSpace).reverse.dropWhile pyIsSpace).reverse)

/-- Python `sep.join(parts)`. -/
def pyJoin (sep : String) : List String → String
  | [] => ""
  | [x] => x
  | x :: xs => x ++ sep ++ pyJoin sep xs

/-- A DynamoDB task-status item for a `(parent_id, task_id)` key. The fields
named in update_task_status are explicit; `extra` stands for every other
attribute of the stored item, so frame conditions are expressible. -/
structure Entry where
  status : Option String
  date_updated : Option String
  media_url : Option String
  sparse_gsi_hash_key : Option String
  extra : List (String × String)
deriving DecidableEq, Repr

/-- The item produced by a fresh update_item on an absent key: only the SET
fields exist. -/
def default_entry : Entry :=
  ⟨none, none, none, none, []⟩

/-- The UpdateExpression built by update_task_status (src/main.py lines
225-260) applied to one item: SET status and date_updated, SET media_url only
when an s3_url is given, and REMOVE sparse_gsi_hash_key only when the status
being written is COMPLETED. -/
def update_item_entry (e : Entry) (status : String) (date_updated : String)
    (s3_url : Option String) : Entry :=
  let e1 := { e with status := some status, date_updated := some date_updated }
  let e2 := match s3_url with
    | some u => { e1 with media_url := some u }
    | none => e1
  if status = "COMPLETED" then { e2 with sparse_gsi_hash_key := none } else e2

/-- The DynamoDB table keyed by `(parent_id, task_id)`. -/
abbrev Store := List ((String × String) × Entry)

/-- Read the item at a composite key. -/
def store_get : Store → String → String → Option Entry
  | [], _, _ => none
  | (k, v) :: rest, p, t => if k = (p, t) then some v else store_get rest p t

/-- Write the item at a composite key (overwriting an existing item). -/
def store_set : Store → String → String → Entry → Store
  | [], p, t, e => [((p, t), e)]
  | (k, v) :: rest, p, t, e =>
      if k = (p, t) then (k, e) :: rest else (k, v) :: store_set rest p t e

/-- update_task_status (src/main.py lines 213-265) as a store transformer:
an unconditional update_item, creating the item when absent. The timestamp is
passed in (`now`) since the clock is external. -/
def update_task_status (st : Store) (parent_id task_id status now : String)
    (s3_url : Option String) : Store :=
  store_set st parent_id task_id
    (update_item_entry ((store_get st parent_id task_id).getD default_entry)
      status now s3_url)

/-- The pure core of is_task_completed (src/main.py lines 202-207): the item
read for the key, if any, must carry status COMPLETED. -/
def is_task_completed_entry : Option Entry → Bool
  | some item =>
    match item.status with
    | some s => s == "COMPLETED"
    | none => false
  | none => false

/-- is_task_completed (src/main.py lines 182-211) against a fallible store
read: a storage-layer error is re-raised as a RuntimeError wrapping the
original message, never converted to a boolean. -/
def is_task_completed (get : String → String → Except String (Option Entry))
    (parent_id task_id : String) : Except String Bool :=
  match get parent_id task_id with
  | Except.ok item => Except.ok (is_task_completed_entry item)
  | Except.error e =>
      Except.error ("Unable to verify task status for " ++ task_id ++
        ". DynamoDB check failed: " ++ e)

/-- Zero-pad to two digits, as the f-string 02d format of write_srt. -/
def two_digits (n : Int) : String :=
  (if n < 10 then "0" else "") ++ toString n

/-- Zero-pad to three digits, as the f-string 03d format of write_srt. -/
def three_digits (n : Int) : String :=
  (if n < 10 then "00" else if n < 100 then "0" else "") ++ toString n

/-- The fmt helper of write_srt (src/main.py lines 92-97), rendering a time
in seconds as HH:MM:SS,mmm. Cue times are nonnegative, where Python int()
truncation agrees with the floor. -/
def fmt_ts (t : ℚ) : String :=
  let ip : Int := ⌊t⌋
  let ms : Int := ⌊(t - (ip : ℚ)) * 1000⌋
  let s : Int := ip % 60
  let m : Int := (ip / 60) % 60
  let h : Int := ip / 3600
  two_digits h ++ ":" ++ two_digits m ++ ":" ++ two_digits s ++ "," ++ three_digits ms

/-- The lines accumulated by write_srt for the items, starting at index i:
index line, timing line, stripped text line, blank separator. -/
def srt_lines : Nat → List (ℚ × ℚ × String) → List String
  | _, [] => []
  | i, (st, et, tx) :: rest =>
      toString i :: (fmt_ts st ++ " --> " ++ fmt_ts et) :: pyStrip tx :: "" ::
        srt_lines (i + 1) rest

/-- write_srt (src/main.py lines 90-102), returning the file content written
(the on-disk file size is the byte length of this content). -/
def write_srt (items : List (ℚ × ℚ × String)) : String :=
  pyJoin "\n" (srt_lines 1 items)

/-- Terminal punctuation of the sentence-splitting regex of
naive_sentence_srt. -/
def sentence_term (c : Char) : Bool :=
  c == '.' || c == '!' || c == '?'

/-- Python re.split with pattern (?<=[.!?])\s+ over the character list: cut
after terminal punctuation directly followed by whitespace, consuming the
whole whitespace run. State some acc accumulates the current piece reversed;
state none skips the whitespace run just after a cut (the greedy tail of the
separator match), which ends at the first non-space character. -/
def split_sentences_aux : List Char → Option (List Char) → List (List Char)
  | [], none => [[]]
  | [], some acc => [acc.reverse]
  | c :: rest, some acc =>
    match rest with
    | [] => [(c :: acc).reverse]
    | d :: _ =>
      if sentence_term c && pyIsSpace d then
        (c :: acc).reverse :: split_sentences_aux rest none
      else
        split_sentences_aux rest (some (c :: acc))
  | c :: rest, none =>
    if pyIsSpace c then split_sentences_aux rest none
    else
      match rest with
      | [] => [[c]]
      | d :: _ =>
        if sentence_term c && pyIsSpace d then
          [c] :: split_sentences_aux rest none
        else
          split_sentences_aux rest (some [c])

/-- The sentence list of naive_sentence_srt (src/main.py line 138): split at
sentence boundaries, strip each piece, keep the truthy ones. -/
def split_sentences (text : String) : List String :=
  ((split_sentences_aux text.toList (some [])).map
    (fun l => pyStrip (String.mk l))).filter (fun s => s ≠ "")

/-- The cue-building loop of naive_sentence_srt (src/main.py lines 142-145):
contiguous windows of width per starting at t, ends clamped to the audio
duration. -/
def naive_items_aux (per dur : ℚ) : List String → ℚ → List (ℚ × ℚ × String)
  | [], _ => []
  | s :: rest, t => (t, min (t + per) dur, s) :: naive_items_aux per dur rest (t + per)

/-- The cue list of naive_sentence_srt (src/main.py lines 136-145): sentences
from the text (the whole stripped text as one sentence when no boundary is
found), per-sentence width max(1, duration / count), windows from 0. -/
def naive_items (text : String) (wav_dur_sec : ℚ) : List (ℚ × ℚ × String) :=
  let sents := split_sentences text
  let sents := if sents.isEmpty then [pyStrip (if text == "" then " " else text)] else sents
  let per : ℚ := max 1 (wav_dur_sec / ((max 1 sents.length : ℕ) : ℚ))
  naive_items_aux per wav_dur_sec sents 0

/-- naive_sentence_srt (src/main.py lines 136-146), returning the SRT
content written. -/
def naive_sentence_srt (text : String) (wav_dur_sec : ℚ) : String :=
  write_srt (naive_items text wav_dur_sec)

/-- The guard of the forced-alignment tier of make_subtitles: alignment is
attempted only when requested and the text is not blank. -/
def align_attempted (use_align : Bool) (text : String) : Bool :=
  use_align && (pyStrip text ≠ "")

/-- make_subtitles (src/main.py lines 148-179), returning the subtitle file
content. The aeneas collaborator outcome is the align_out input: some c when
alignment wrote a file with content c, none when it raised. Tier 1 is kept
only when it produced a nonempty file; otherwise the naive tier writes the
file, and the defensive last-resort single cue covers a naive result of size
zero. Totality of this function in align_out is the contract that alignment
failures never propagate to the caller. -/
def make_subtitles (align_out : Option String) (text : String) (dur : ℚ)
    (use_align : Bool) : String :=
  let aligned : Option String :=
    if align_attempted use_align text then
      match align_out with
      | some c => if 0 < c.length then some c else none
      | none => none
    else none
  match aligned with
  | some c => c
  | none =>
    let c := naive_sentence_srt text dur
    if 0 < c.length then c
    else write_srt [(0, max 1 dur, if text == "" then " " else text)]

/-- Errors raised out of process_job: SQSMessageValidationError with its
missing_fields and received_fields payload (src/main.py lines 6-16), a
Python-level TypeError from using a non-string where a string is required,
a failed synthesis (no wav produced), and a failed S3 upload. -/
inductive PErr where
  | pvalid (missing_fields : List String) (received_fields : Payload)
  | typeError
  | synthFail
  | uploadFail
deriving DecidableEq, Repr

/-- Whether an error is the SQSMessageValidationError case, which worker_loop
handles by its dedicated except branch. -/
def PErr.is_validation_error : PErr → Bool
  | PErr.pvalid _ _ => true
  | _ => false

/-- Observable calls made while processing one message: a DynamoDB status
write (with the optional media url), the synthesis call, the aeneas
alignment attempt, the two S3 uploads, and a send to a dead-letter queue.
The dlqSend case exists so that its absence from every trace is a theorem
about the code rather than about the model vocabulary. -/
inductive Event where
  | statusWrite (parent_id task_id status : String) (s3_url : Option String)
  | synthCall
  | alignCall
  | uploadAudio
  | uploadSubs
  | dlqSend
deriving DecidableEq, Repr

/-- Outcomes of the external collaborators for one message, plus the clock.
loads models json.loads on nested Message strings (none = JSONDecodeError);
synth_ok is whether synth_to_wav leaves a wav on disk without raising;
audio_dur is the duration soundfile reads from that wav; align_out is the
aeneas outcome (none = raised, some c = wrote a file with content c);
upload flags are whether each s3.upload_file call succeeds. -/
structure Env where
  loads : String → Option Payload
  synth_ok : Bool
  audio_dur : ℚ
  align_out : Option String
  upload_audio_ok : Bool
  upload_subs_ok : Bool
  now : String

/-- Result of one process_job call: the returned-or-raised outcome, the
status store after the call, and the trace of collaborator calls made. -/
structure PResult where
  res : Except PErr Unit
  store : Store
  events : List Event
deriving Repr

/-- The SNS envelope test of process_job (src/main.py line 283): the body
has Type equal to the string Notification and carries a Message key. -/
def is_envelope (j : Payload) : Bool :=
  (match j.lookup "Type" with
   | some (JVal.str s) => s == "Notification"
   | _ => false) && hasKey j "Message"

/-- The envelope-unwrapping step of process_job (src/main.py lines 281-293):
a non-envelope body is the job itself; for an envelope, the nested Message
string is parsed, a parse failure raising SQSMessageValidationError with an
empty missing_fields list and the raw body as received_fields. A non-string
Message makes json.loads raise TypeError, which nothing here catches. -/
def extract_actual_job (loads : String → Option Payload) (job : Payload) :
    Except PErr Payload :=
  if is_envelope job then
    match job.lookup "Message" with
    | some (JVal.str s) =>
      match loads s with
      | some p => Except.ok p
      | none => Except.error (PErr.pvalid [] job)
    | _ => Except.error PErr.typeError
  else Except.ok job

/-- The four required job fields (src/main.py line 296). -/
def required_fields : List String :=
  ["text", "parent_id", "tts_task_id", "srt_task_id"]

/-- The missing-field computation of process_job (src/main.py line 297):
the required fields, in order, whose key is absent from the job. -/
def missing_fields (actual_job : Payload) : List String :=
  required_fields.filter (fun f => !hasKey actual_job f)

/-- process_job (src/main.py lines 268-350). Steps, in source order: unwrap
the SNS envelope; validate presence of the required fields (raising before
any side effect); write IN_PROGRESS for both task ids (a non-string id makes
the boto3 call raise client-side before writing); the debug log slices the
text, raising on a non-string text; the dedup check reads the tts task
status back; synthesis; make_subtitles (the alignment attempt is recorded
when its tier runs); the two uploads in fixed order; COMPLETED writes with
the derived S3 URIs. Store reads are assumed to succeed in this model; a
read failure would raise out of the attempt like any other error. -/
def process_job (env : Env) (st : Store) (job : Payload) : PResult :=
  match extract_actual_job env.loads job with
  | Except.error e => ⟨Except.error e, st, []⟩
  | Except.ok actual_job =>
    if (missing_fields actual_job).isEmpty then
      match actual_job.lookup "parent_id", actual_job.lookup "tts_task_id" with
      | some (JVal.str parent_id), some (JVal.str tts_task_id) =>
        let st1 := update_task_status st parent_id tts_task_id "IN_PROGRESS" env.now none
        let ev1 := [Event.statusWrite parent_id tts_task_id "IN_PROGRESS" none]
        match actual_job.lookup "srt_task_id" with
        | some (JVal.str srt_task_id) =>
          let st2 := update_task_status st1 parent_id srt_task_id "IN_PROGRESS" env.now none
          let ev2 := ev1 ++ [Event.statusWrite parent_id srt_task_id "IN_PROGRESS" none]
          match actual_job.lookup "text" with
          | some (JVal.str text) =>
            if is_task_completed_entry (store_get st2 parent_id tts_task_id) then
              ⟨Except.ok (), st2, ev2⟩
            else
              let audio_s3 := "s3://story-video-data/" ++ parent_id ++ "/" ++ tts_task_id ++ ".wav"
              let subs_s3 := "s3://story-video-data/" ++ parent_id ++ "/" ++ srt_task_id ++ ".srt"
              let use_align := jtruthy ((actual_job.lookup "use_alignment").getD (JVal.bool true))
              if env.synth_ok then
                let _subs := make_subtitles env.align_out text env.audio_dur use_align
                let ev3 := ev2 ++ [Event.synthCall] ++
                  (if align_attempted use_align text then [Event.alignCall] else [])
                if env.upload_audio_ok then
                  if env.upload_subs_ok then
                    let st3 := update_task_status st2 parent_id tts_task_id "COMPLETED" env.now (some audio_s3)
                    let st4 := update_task_status st3 parent_id srt_task_id "COMPLETED" env.now (some subs_s3)
                    ⟨Except.ok (), st4,
                      ev3 ++ [Event.uploadAudio, Event.uploadSubs,
                        Event.statusWrite parent_id tts_task_id "COMPLETED" (some audio_s3),
                        Event.statusWrite parent_id srt_task_id "COMPLETED" (some subs_s3)]⟩
                  else ⟨Except.error PErr.uploadFail, st2, ev3 ++ [Event.uploadAudio, Event.uploadSubs]⟩
                else ⟨Except.error PErr.uploadFail, st2, ev3 ++ [Event.uploadAudio]⟩
              else ⟨Except.error PErr.synthFail, st2, ev2 ++ [Event.synthCall]⟩
          | _ => ⟨Except.error PErr.typeError, st2, ev2⟩
        | _ => ⟨Except.error PErr.typeError, st1, ev1⟩
      | _, _ => ⟨Except.error PErr.typeError, st, []⟩
    else Except.error (PErr.pvalid (missing_fields actual_job) actual_job) |> (⟨·, st, []⟩)

/-- The identifier-recovery step of the generic failure branch of
worker_loop (src/main.py lines 394-400): re-unwrap the envelope, a
JSONDecodeError falling back to the raw body; a non-string Message raises
TypeError inside the recovery try, which yields no recovered job. -/
def unwrap_for_status (loads : String → Option Payload) (job : Payload) :
    Option Payload :=
  if is_envelope job then
    match job.lookup "Message" with
    | some (JVal.str s) => some ((loads s).getD job)
    | _ => none
  else some job

/-- Result of one worker_loop iteration for one received message: the store
afterwards, the full event trace, and whether the message was deleted. -/
structure WResult where
  store : Store
  events : List Event
  deleted : Bool
deriving Repr

/-- One iteration of worker_loop for one parsed message body (src/main.py
lines 370-416). Success deletes the message; SQSMessageValidationError only
logs; any other error attempts to recover the three identifiers and, when
all three are present as strings, writes FAILED for both task ids (a
non-string identifier makes the first boto3 write raise inside the inner
try, which is caught and logged). No branch sends to a dead-letter queue. -/
def worker_loop_iter (env : Env) (st : Store) (job : Payload) : WResult :=
  let pr := process_job env st job
  match pr.res with
  | Except.ok _ => ⟨pr.store, pr.events, true⟩
  | Except.error (PErr.pvalid _ _) => ⟨pr.store, pr.events, false⟩
  | Except.error _ =>
    match unwrap_for_status env.loads job with
    | none => ⟨pr.store, pr.events, false⟩
    | some aj =>
      match aj.lookup "parent_id", aj.lookup "tts_task_id", aj.lookup "srt_task_id" with
      | some (JVal.str p), some (JVal.str t), some (JVal.str s) =>
        let st1 := update_task_status pr.store p t "FAILED" env.now none
        let st2 := update_task_status st1 p s "FAILED" env.now none
        ⟨st2, pr.events ++ [Event.statusWrite p t "FAILED" none,
          Event.statusWrite p s "FAILED" none], false⟩
      | _, _, _ => ⟨pr.store, pr.events, false⟩

/-- Recognizer for the audio-upload event. -/
def isUploadAudioE : Event → Bool
  | Event.uploadAudio => true
  | _ => false

/-- Recognizer for the subtitle-upload event. -/
def isUploadSubsE : Event → Bool
  | Event.uploadSubs => true
  | _ => false

/-- Recognizer for a status write that sets COMPLETED. -/
def isCompletedWriteE : Event → Bool
  | Event.statusWrite _ _ s _ => s == "COMPLETED"
  | _ => false

/-- Temporal checker over a trace: every event matched by q is strictly
preceded by some event matched by p; seen carries whether a p-event has
already occurred. -/
def preceded_by (p q : Event → Bool) : Bool → List Event → Bool
  | _, [] => true
  | seen, e :: rest => (!q e || seen) && preceded_by p q (seen || p e) rest

/-- Collaborator outcomes where everything succeeds: synthesis writes a 2s
wav, alignment raises (exercising the fallback), uploads succeed. -/
def env_ok : Env :=
  ⟨fun _ => none, true, 2, none, true, true, "2025-01-01T00:00:00Z"⟩

/-- Collaborator outcomes where the audio upload raises. -/
def env_upload_fail : Env :=
  { env_ok with upload_audio_ok := false }

/-- The empty status store. -/
def store0 : Store := []

/-- A well-formed job body, as in the docstring of process_job. -/
def job_demo : Payload :=
  [("text", JVal.str "Hello world. This is a test."), ("parent_id", JVal.str "p"),
   ("tts_task_id", JVal.str "t"), ("srt_task_id", JVal.str "s")]

/-- A job body whose four required keys are present but whose text is the
empty string. -/
def job_empty_text : Payload :=
  [("text", JVal.str ""), ("parent_id", JVal.str "p"),
   ("tts_task_id", JVal.str "t"), ("srt_task_id", JVal.str "s")]

/-- A job body missing the text key. -/
def job_missing_text : Payload :=
  [("parent_id", JVal.str "p"), ("tts_task_id", JVal.str "t"),
   ("srt_task_id", JVal.str "s")]


/-- A job body missing both task-id keys. -/
def job_two_missing : Payload :=
  [("text", JVal.str "hi"), ("parent_id", JVal.str "p")]

/-- An inner job payload for the envelope counterexample. -/
def payload_inner : Payload := [("a", JVal.str "1")]

/-- A payload that is itself an SNS envelope, whose Message is the encoding
of payload_inner. -/
def payload_env : Payload :=
  [("Type", JVal.str "Notification"), ("Message", JVal.str "innerEnc")]

/-- An envelope whose Message is the encoding of payload_env. -/
def payload_outer : Payload :=
  [("Type", JVal.str "Notification"), ("Message", JVal.str "outerEnc")]

/-- json.loads restricted to the two encodings used by the envelope
counterexample, consistent with real JSON parsing of those strings. -/
def loads_cx : String → Option Payload :=
  fun s =>
    if s = "outerEnc" then some payload_env
    else if s = "innerEnc" then some payload_inner
    else none

/-- A plain (non-enveloped) job payload. -/
def payload_plain : Payload := [("text", JVal.str "x")]

/-- json.loads knowing the encoding of payload_plain. -/
def loads_plain : String → Option Payload :=
  fun s => if s = "enc" then some payload_plain else none

/-- An envelope around the encoding of payload_plain. -/
def payload_wrapped : Payload :=
  [("Type", JVal.str "Notification"), ("Message", JVal.str "enc")]

/-- A status-store reader that always finds a COMPLETED item. -/
def get_completed : String → String → Except String (Option Entry) :=
  fun _ _ => Except.ok (some ⟨some "COMPLETED", none, none, none, []⟩)

/-- C10: a status write issued without an artifact URI modifies only the
status and date_updated fields; a previously recorded media_url and every
other attribute are left unchanged, and the sparse secondary-index marker
is removed exactly when the written status is COMPLETED. -/
theorem c10_no_url_write_frame (e : Entry) (status now : String) :
    (update_item_entry e status now none).media_url = e.media_url ∧
    (update_item_entry e status now none).extra = e.extra ∧
    (update_item_entry e status now none).status = some status ∧
    (update_item_entry e status now none).date_updated = some now ∧
    (update_item_entry e status now none).sparse_gsi_hash_key =
      (if status = "COMPLETED" then none else e.sparse_gsi_hash_key) := by
  unfold update_item_entry
  dsimp only
  split <;> simp

/-- C6: is_task_completed returns ok true exactly when the stored entry
exists with status COMPLETED, returns ok false when the entry is absent or
carries any other status, and propagates a storage-layer error to the
caller instead of converting it to a boolean. -/
theorem c6_is_task_completed_spec
    (get : String → String → Except String (Option Entry))
    (parent_id task_id : String) :
    (is_task_completed get parent_id task_id = Except.ok true ↔
      ∃ e, get parent_id task_id = Except.ok (some e) ∧ e.status = some "COMPLETED") ∧
    (is_task_completed get parent_id task_id = Except.ok false ↔
      get parent_id task_id = Except.ok none ∨
        ∃ e, get parent_id task_id = Except.ok (some e) ∧ e.status ≠ some "COMPLETED") ∧
    (∀ msg, get parent_id task_id = Except.error msg →
      is_task_completed get parent_id task_id =
        Except.error ("Unable to verify task status for " ++ task_id ++
          ". DynamoDB check failed: " ++ msg)) := by
  unfold is_task_completed
  cases hg : get parent_id task_id with
  | error e => simp
  | ok item =>
    cases item with
    | none => simp [is_task_completed_entry]
    | some en =>
      cases hs : en.status with
      | none => simp [is_task_completed_entry, hs]
      | some s =>
        by_cases hc : s = "COMPLETED"
        · subst hc
          simp [is_task_completed_entry, hs]
        · constructor
          · simp only [is_task_completed_entry, hs]
            constructor
            · intro h
              simp [beq_iff_eq, hc] at h
            · rintro ⟨e2, he2, hst⟩
              cases he2
              rw [hs] at hst
              cases hst
              exact absurd rfl hc
          · constructor
            · simp only [is_task_completed_entry, hs]
              constructor
              · intro _
                right
                exact ⟨en, rfl, by simp [hs, hc]⟩
              · intro _
                simp [beq_iff_eq, hc]
            · intro msg hmsg
              cases hmsg

/-- Applies is_task_completed at a store reader holding a COMPLETED item. -/
theorem c6_witness : is_task_completed get_completed "p" "t" = Except.ok true :=
  (c6_is_task_completed_spec get_completed "p" "t").1.mpr ⟨_, rfl, rfl⟩

/-- Joining with a nonempty head yields nonempty content. -/
theorem pyJoin_cons_pos (s : String) (ls : List String) (h : 0 < s.length) :
    0 < (pyJoin "\n" (s :: ls)).length := by
  cases ls with
  | nil => simpa [pyJoin] using h
  | cons x xs =>
    simp only [pyJoin, String.length_append]
    omega

/-- The SRT serialization of a nonempty cue list is nonempty: its first line
is the index 1. -/
theorem write_srt_pos (items : List (ℚ × ℚ × String)) (h : items ≠ []) :
    0 < (write_srt items).length := by
  cases items with
  | nil => exact absurd rfl h
  | cons x rest =>
    obtain ⟨st, et, tx⟩ := x
    unfold write_srt srt_lines
    exact pyJoin_cons_pos _ _ (by decide)

/-- The naive tier always has at least one sentence, hence one cue. -/
theorem naive_items_ne_nil (text : String) (dur : ℚ) :
    naive_items text dur ≠ [] := by
  unfold naive_items
  cases hs : split_sentences text with
  | nil => simp [naive_items_aux]
  | cons x xs => simp [naive_items_aux]

/-- C5: for every text (including empty or whitespace-only), every positive
audio duration, every alignment request flag and every alignment
collaborator outcome (including failure, align_out = none), make_subtitles
returns content of positive size; totality over align_out is the
non-propagation of alignment failures. -/
theorem c5_make_subtitles_nonempty (align_out : Option String) (text : String)
    (dur : ℚ) (use_align : Bool) (h : 0 < dur) :
    0 < (make_subtitles align_out text dur use_align).length := by
  unfold make_subtitles
  split
  case isTrue _ =>
    cases align_out with
    | none =>
      dsimp only
      split
      · assumption
      · exact write_srt_pos _ (by simp)
    | some c0 =>
      dsimp only
      by_cases h0 : 0 < c0.length
      · rw [if_pos h0]
        exact h0
      · rw [if_neg h0]
        dsimp only
        split
        · assumption
        · exact write_srt_pos _ (by simp)
  case isFalse _ =>
    dsimp only
    split
    · assumption
    · exact write_srt_pos _ (by simp)

/-- Applies the subtitle-fallback guarantee at empty text, duration 2 and a
failed alignment. -/
theorem c5_witness :
    0 < (2 : ℚ) ∧ 0 < (make_subtitles none "" 2 true).length :=
  ⟨by norm_num, c5_make_subtitles_nonempty none "" 2 true (by norm_num)⟩

/-- Cue windows from the naive loop never overlap: each end is clamped to at
most the next start. -/
theorem naive_items_aux_chain (per dur : ℚ) (ss : List String) (t : ℚ) :
    List.Chain' (fun a b => a.2.1 ≤ b.1) (naive_items_aux per dur ss t) := by
  induction ss generalizing t with
  | nil => simp [naive_items_aux]
  | cons s rest ih =>
    rw [naive_items_aux, List.chain'_cons']
    refine ⟨?_, ih (t + per)⟩
    intro y hy
    cases rest with
    | nil => simp [naive_items_aux] at hy
    | cons s2 r2 =>
      rw [naive_items_aux] at hy
      simp only [List.head?_cons, Option.mem_some_iff] at hy
      subst hy
      exact min_le_left _ _

/-- A cue from the naive loop whose start is below the duration has positive
width, for a positive per-sentence window. -/
theorem naive_items_aux_start_lt (per dur : ℚ) (hper : 0 < per)
    (ss : List String) (t : ℚ) :
    ∀ c ∈ naive_items_aux per dur ss t, c.1 < dur → c.1 < c.2.1 := by
  induction ss generalizing t with
  | nil => simp [naive_items_aux]
  | cons s rest ih =>
    intro c hc hlt
    rw [naive_items_aux] at hc
    rcases List.mem_cons.mp hc with h | h
    · subst h
      exact lt_min (by linarith) hlt
    · exact ih (t + per) c h hlt

/-- C3 counterexample: at text with two sentences and audio duration 1
(positive), the naive tier produces a cue whose start is not below its end
(the second cue is (1, 1)). -/
theorem c3_counterexample :
    (0 : ℚ) < 1 ∧ ∃ c ∈ naive_items "A. B." (1 : ℚ), ¬ c.1 < c.2.1 := by
  have hitems : naive_items "A. B." (1 : ℚ) = [(0, 1, "A."), (1, 1, "B.")] := by
    have hs : split_sentences "A. B." = ["A.", "B."] := by decide
    unfold naive_items
    rw [hs]
    norm_num [naive_items_aux]
  refine ⟨by norm_num, (1, 1, "B."), ?_, ?_⟩
  · rw [hitems]
    simp
  · norm_num

/-- C3 amended: every generated cue sequence is non-overlapping (each cue
ends no later than the next starts), and every cue whose start time lies
below the audio duration satisfies start < end; cues whose start reaches the
duration (possible when the sentence count exceeds the duration in seconds,
the per-sentence window being clamped to at least 1s) are degenerate with
end clamped to the duration. -/
theorem c3_cues_nonoverlap (text : String) (dur : ℚ) (h : 0 < dur) :
    List.Chain' (fun a b => a.2.1 ≤ b.1) (naive_items text dur) ∧
    ∀ c ∈ naive_items text dur, c.1 < dur → c.1 < c.2.1 := by
  constructor
  · unfold naive_items
    exact naive_items_aux_chain _ _ _ _
  · unfold naive_items
    exact naive_items_aux_start_lt _ _
      (lt_of_lt_of_le zero_lt_one (le_max_left 1 _)) _ _

/-- Applies the amended cue invariant at a two-sentence text with a long
duration. -/
theorem c3_witness :
    (0 : ℚ) < 10 ∧
      List.Chain' (fun a b => a.2.1 ≤ b.1) (naive_items "Hello. World." (10 : ℚ)) :=
  ⟨by norm_num, (c3_cues_nonoverlap "Hello. World." 10 (by norm_num)).1⟩

/-- C1: evaluates the code on a job whose first process_job call fully
completed (both task statuses COMPLETED in the store). The second call does
not return before the work: it re-invokes synthesis and both uploads,
because the IN_PROGRESS writes issued at the start of process_job overwrite
COMPLETED before the dedup check reads the status back. -/
theorem c1_second_call_reinvokes_work :
    (process_job env_ok store0 job_demo).res = Except.ok () ∧
    is_task_completed_entry
      (store_get (process_job env_ok store0 job_demo).store "p" "t") = true ∧
    is_task_completed_entry
      (store_get (process_job env_ok store0 job_demo).store "p" "s") = true ∧
    Event.synthCall ∈
      (process_job env_ok (process_job env_ok store0 job_demo).store job_demo).events ∧
    Event.uploadAudio ∈
      (process_job env_ok (process_job env_ok store0 job_demo).store job_demo).events ∧
    Event.uploadSubs ∈
      (process_job env_ok (process_job env_ok store0 job_demo).store job_demo).events :=
  ⟨rfl, rfl, rfl, by decide, by decide, by decide⟩

/-- C2 counterexample: a message failing with an upload error (not a
ValidationError) gets both task ids marked FAILED, yet no dead-letter entry
is sent anywhere in the iteration. -/
theorem c2_counterexample :
    Event.statusWrite "p" "t" "FAILED" none ∈
      (worker_loop_iter env_upload_fail store0 job_demo).events ∧
    Event.statusWrite "p" "s" "FAILED" none ∈
      (worker_loop_iter env_upload_fail store0 job_demo).events ∧
    Event.dlqSend ∉ (worker_loop_iter env_upload_fail store0 job_demo).events := by
  refine ⟨by decide, by decide, by decide⟩

/-- Unwrapping a body that is not an envelope is the identity. -/
theorem extract_actual_job_of_plain (loads : String → Option Payload)
    (job : Payload) (h : is_envelope job = false) :
    extract_actual_job loads job = Except.ok job := by
  unfold extract_actual_job
  simp [h]

/-- When the unwrapped job misses a required key, process_job stops at the
validation step with the computed missing list and the unwrapped payload,
leaving store and trace untouched. -/
theorem process_job_missing_rejected (env : Env) (st : Store)
    (job aj : Payload)
    (hex : extract_actual_job env.loads job = Except.ok aj)
    (hmiss : missing_fields aj ≠ []) :
    process_job env st job =
      ⟨Except.error (PErr.pvalid (missing_fields aj) aj), st, []⟩ := by
  unfold process_job
  rw [hex]
  have hie : (missing_fields aj).isEmpty = false := by
    cases hm : missing_fields aj with
    | nil => exact absurd hm hmiss
    | cons x xs => rfl
  dsimp only
  rw [hie]
  simp

/-- C4 counterexample: a record whose text field is present but empty is not
rejected; process_job performs its side effects (status writes, synthesis)
and completes. -/
theorem c4_counterexample :
    job_empty_text.lookup "text" = some (JVal.str "") ∧
    (process_job env_ok store0 job_empty_text).res = Except.ok () ∧
    Event.statusWrite "p" "t" "IN_PROGRESS" none ∈
      (process_job env_ok store0 job_empty_text).events ∧
    Event.synthCall ∈ (process_job env_ok store0 job_empty_text).events :=
  ⟨rfl, rfl, by decide, by decide⟩

/-- C4 amended: a job record missing any of the four required keys is
rejected with SQSMessageValidationError before any side effect: the store is
untouched and no collaborator call happens. (Presence is all the code
checks: an empty-string value passes, see the counterexample.) -/
theorem c4_missing_rejected_before_effects (env : Env) (st : Store)
    (job aj : Payload)
    (hex : extract_actual_job env.loads job = Except.ok aj)
    (hmiss : missing_fields aj ≠ []) :
    process_job env st job =
      ⟨Except.error (PErr.pvalid (missing_fields aj) aj), st, []⟩ :=
  process_job_missing_rejected env st job aj hex hmiss

/-- Applies the validation rejection at a record missing its text key. -/
theorem c4_witness :
    process_job env_ok store0 job_missing_text =
      ⟨Except.error (PErr.pvalid ["text"] job_missing_text), store0, []⟩ :=
  c4_missing_rejected_before_effects env_ok store0 job_missing_text
    job_missing_text rfl (by decide)

/-- C7 amended: for every payload P that is not itself an envelope,
normalizing P is the identity, and normalizing any enveloped message whose
Message string parses to P yields P as well; the two results agree. (For a
payload that is itself an envelope the equation fails, since exactly one
layer is unwrapped: see the counterexample.) -/
theorem c7_envelope_normalization (loads : String → Option Payload)
    (P outer : Payload) (s : String)
    (hP : is_envelope P = false) (hout : is_envelope outer = true)
    (hmsg : outer.lookup "Message" = some (JVal.str s))
    (hload : loads s = some P) :
    extract_actual_job loads P = Except.ok P ∧
    extract_actual_job loads outer = Except.ok P := by
  refine ⟨extract_actual_job_of_plain loads P hP, ?_⟩
  unfold extract_actual_job
  rw [hout]
  simp [hmsg, hload]

/-- C7 counterexample: take the payload payload_env, itself an envelope
whose Message parses to payload_inner, and an outer envelope whose Message
parses to payload_env (loads_cx is consistent with real JSON parsing of the
two encodings). Normalizing the outer message yields payload_env, while
normalizing payload_env directly unwraps once more and yields payload_inner,
so the two normalizations disagree. -/
theorem c7_counterexample :
    extract_actual_job loads_cx payload_outer = Except.ok payload_env ∧
    extract_actual_job loads_cx payload_env = Except.ok payload_inner ∧
    payload_env ≠ payload_inner :=
  ⟨rfl, rfl, by decide⟩

/-- Applies the envelope-normalization agreement at a plain payload and its
wrapped form. -/
theorem c7_witness :
    extract_actual_job loads_plain payload_plain = Except.ok payload_plain ∧
    extract_actual_job loads_plain payload_wrapped = Except.ok payload_plain :=
  c7_envelope_normalization loads_plain payload_plain payload_wrapped "enc"
    rfl rfl rfl rfl

/-- Filtering a nodup list by a predicate that characterizes membership in a
sublist recovers exactly that sublist. -/
theorem filter_eq_of_sublist {l S : List String} {p : String → Bool}
    (hnd : l.Nodup) (hsub : S.Sublist l)
    (hchar : ∀ f ∈ l, (p f = true ↔ f ∈ S)) :
    l.filter p = S := by
  induction hsub with
  | slnil => rfl
  | @cons S' l' a hsub ih =>
    have hpa : p a = false := by
      cases hp : p a with
      | false => rfl
      | true =>
        have haS : a ∈ S' := (hchar a (List.mem_cons_self a l')).mp hp
        have : a ∈ l' := hsub.subset haS
        exact absurd this (List.nodup_cons.mp hnd).1
    rw [List.filter_cons_of_neg (by simp [hpa])]
    exact ih (List.nodup_cons.mp hnd).2
      (fun f hf => hchar f (List.mem_cons_of_mem a hf))
  | @cons₂ S' l' a hsub ih =>
    have hpa : p a = true :=
      (hchar a (List.mem_cons_self a l')).mpr (List.mem_cons_self a S')
    rw [List.filter_cons_of_pos hpa]
    have hanl : a ∉ l' := (List.nodup_cons.mp hnd).1
    congr 1
    apply ih (List.nodup_cons.mp hnd).2
    intro f hf
    constructor
    · intro hp
      have := (hchar f (List.mem_cons_of_mem a hf)).mp hp
      rcases List.mem_cons.mp this with rfl | hS
      · exact absurd hf hanl
      · exact hS
    · intro hS
      exact (hchar f (List.mem_cons_of_mem a hf)).mpr (List.mem_cons_of_mem a hS)

/-- C8 amended: for every nonempty subset S of the four required fields
(given in the required order) and every non-enveloped payload missing
exactly the keys in S, validation raises SQSMessageValidationError whose
missing-field list is exactly S and which carries the whole payload (hence
the full set of present keys) as received_fields, with no side effect. For
the empty subset no error is raised: see the counterexample. -/
theorem c8_missing_fields_exact (env : Env) (st : Store) (S : List String)
    (aj : Payload)
    (henv : is_envelope aj = false)
    (hsub : S.Sublist required_fields)
    (hchar : ∀ f ∈ required_fields, ((hasKey aj f = false) ↔ f ∈ S))
    (hne : S ≠ []) :
    missing_fields aj = S ∧
    process_job env st aj =
      ⟨Except.error (PErr.pvalid S aj), st, []⟩ := by
  have hm : missing_fields aj = S := by
    unfold missing_fields
    apply filter_eq_of_sublist (by decide) hsub
    intro f hf
    rw [Bool.not_eq_true']
    exact hchar f hf
  refine ⟨hm, ?_⟩
  have h4 := process_job_missing_rejected env st aj aj
    (extract_actual_job_of_plain env.loads aj henv) (hm ▸ hne)
  rw [hm] at h4
  exact h4

/-- C8 counterexample: for the empty subset of missing fields (a payload
carrying all four required keys) no SQSMessageValidationError is raised;
processing proceeds and succeeds. -/
theorem c8_counterexample :
    missing_fields job_demo = [] ∧
    (process_job env_ok store0 job_demo).res = Except.ok () :=
  ⟨rfl, rfl⟩

/-- Applies the exact-missing-list property at a payload missing both task
ids. -/
theorem c8_witness :
    missing_fields job_two_missing = ["tts_task_id", "srt_task_id"] ∧
    process_job env_ok store0 job_two_missing =
      ⟨Except.error (PErr.pvalid ["tts_task_id", "srt_task_id"] job_two_missing),
        store0, []⟩ :=
  c8_missing_fields_exact env_ok store0 ["tts_task_id", "srt_task_id"]
    job_two_missing rfl (by decide) (by decide) (by decide)


/-- Exhaustive enumeration of the event-trace shapes process_job can
produce, with the upload flags and result pinned down in the shapes that
reach the uploads. -/
theorem process_job_shape (env : Env) (st : Store) (job : Payload) :
    (process_job env st job).events = [] ∨
    (∃ p t, (process_job env st job).events =
      [Event.statusWrite p t "IN_PROGRESS" none]) ∨
    (∃ p t s, (process_job env st job).events =
      [Event.statusWrite p t "IN_PROGRESS" none,
       Event.statusWrite p s "IN_PROGRESS" none]) ∨
    (∃ p t s, (process_job env st job).events =
      [Event.statusWrite p t "IN_PROGRESS" none,
       Event.statusWrite p s "IN_PROGRESS" none, Event.synthCall]) ∨
    (∃ p t s al, (al = [] ∨ al = [Event.alignCall]) ∧
      (process_job env st job).events =
        [Event.statusWrite p t "IN_PROGRESS" none,
         Event.statusWrite p s "IN_PROGRESS" none, Event.synthCall] ++ al ++
          [Event.uploadAudio] ∧
      env.upload_audio_ok = false ∧
      (process_job env st job).res = Except.error PErr.uploadFail) ∨
    (∃ p t s al, (al = [] ∨ al = [Event.alignCall]) ∧
      (process_job env st job).events =
        [Event.statusWrite p t "IN_PROGRESS" none,
         Event.statusWrite p s "IN_PROGRESS" none, Event.synthCall] ++ al ++
          [Event.uploadAudio, Event.uploadSubs] ∧
      env.upload_audio_ok = true ∧ env.upload_subs_ok = false ∧
      (process_job env st job).res = Except.error PErr.uploadFail) ∨
    (∃ p t s al u1 u2, (al = [] ∨ al = [Event.alignCall]) ∧
      (process_job env st job).events =
        [Event.statusWrite p t "IN_PROGRESS" none,
         Event.statusWrite p s "IN_PROGRESS" none, Event.synthCall] ++ al ++
          [Event.uploadAudio, Event.uploadSubs,
           Event.statusWrite p t "COMPLETED" (some u1),
           Event.statusWrite p s "COMPLETED" (some u2)] ∧
      env.upload_audio_ok = true ∧ env.upload_subs_ok = true ∧
      (process_job env st job).res = Except.ok ()) := by
  unfold process_job
  split
  · exact Or.inl rfl
  · split
    · split
      · rename_i sc1 sc2 pid tid hpid htid
        try dsimp only
        split
        · rename_i sc3 sid hsid
          try dsimp only
          split
          · rename_i sc4 txt htxt
            try dsimp only
            split
            · exact Or.inr (Or.inr (Or.inl ⟨pid, tid, sid, rfl⟩))
            · try dsimp only
              split
              · split
                · split
                  · split
                    · refine Or.inr (Or.inr (Or.inr (Or.inr (Or.inr (Or.inr
                        ⟨pid, tid, sid, [Event.alignCall],
                          "s3://story-video-data/" ++ pid ++ "/" ++ tid ++ ".wav",
                          "s3://story-video-data/" ++ pid ++ "/" ++ sid ++ ".srt",
                          Or.inr rfl, by simp, by assumption, by assumption, rfl⟩)))))
                    · refine Or.inr (Or.inr (Or.inr (Or.inr (Or.inr (Or.inr
                        ⟨pid, tid, sid, [],
                          "s3://story-video-data/" ++ pid ++ "/" ++ tid ++ ".wav",
                          "s3://story-video-data/" ++ pid ++ "/" ++ sid ++ ".srt",
                          Or.inl rfl, by simp, by assumption, by assumption, rfl⟩)))))
                  · split
                    · refine Or.inr (Or.inr (Or.inr (Or.inr (Or.inr (Or.inl
                        ⟨pid, tid, sid, [Event.alignCall], Or.inr rfl, by simp,
                          by assumption, ?_, rfl⟩)))))
                      exact (Bool.not_eq_true env.upload_subs_ok) ▸
                        ‹¬env.upload_subs_ok = true›
                    · refine Or.inr (Or.inr (Or.inr (Or.inr (Or.inr (Or.inl
                        ⟨pid, tid, sid, [], Or.inl rfl, by simp,
                          by assumption, ?_, rfl⟩)))))
                      exact (Bool.not_eq_true env.upload_subs_ok) ▸
                        ‹¬env.upload_subs_ok = true›
                · split
                  · refine Or.inr (Or.inr (Or.inr (Or.inr (Or.inl
                      ⟨pid, tid, sid, [Event.alignCall], Or.inr rfl, by simp,
                        ?_, rfl⟩))))
                    exact (Bool.not_eq_true env.upload_audio_ok) ▸
                      ‹¬env.upload_audio_ok = true›
                  · refine Or.inr (Or.inr (Or.inr (Or.inr (Or.inl
                      ⟨pid, tid, sid, [], Or.inl rfl, by simp,
                        ?_, rfl⟩))))
                    exact (Bool.not_eq_true env.upload_audio_ok) ▸
                      ‹¬env.upload_audio_ok = true›
              · exact Or.inr (Or.inr (Or.inr (Or.inl ⟨pid, tid, sid, rfl⟩)))
          · exact Or.inr (Or.inr (Or.inl ⟨pid, tid, sid, rfl⟩))
        · exact Or.inr (Or.inl ⟨pid, tid, rfl⟩)
      · exact Or.inl rfl
    · exact Or.inl rfl

/-- process_job never emits a dead-letter send. -/
theorem process_no_dlq (env : Env) (st : Store) (job : Payload) :
    Event.dlqSend ∉ (process_job env st job).events := by
  rcases process_job_shape env st job with h | ⟨p, t, h⟩ | ⟨p, t, s, h⟩ |
    ⟨p, t, s, h⟩ | ⟨p, t, s, al, hal, h, -, -⟩ | ⟨p, t, s, al, hal, h, -, -, -⟩ |
    ⟨p, t, s, al, u1, u2, hal, h, -, -, -⟩
  · rw [h]; simp
  · rw [h]; simp
  · rw [h]; simp
  · rw [h]; simp
  · rcases hal with rfl | rfl <;> rw [h] <;> simp
  · rcases hal with rfl | rfl <;> rw [h] <;> simp
  · rcases hal with rfl | rfl <;> rw [h] <;> simp

/-- One worker iteration never emits a dead-letter send either: the failure
branches only write FAILED statuses and log. -/
theorem worker_no_dlq (env : Env) (st : Store) (job : Payload) :
    Event.dlqSend ∉ (worker_loop_iter env st job).events := by
  unfold worker_loop_iter
  try dsimp only
  split
  · exact process_no_dlq env st job
  · exact process_no_dlq env st job
  · split
    · exact process_no_dlq env st job
    · split
      · intro h
        rcases List.mem_append.mp h with h1 | h2
        · exact process_no_dlq env st job h1
        · simp at h2
      · exact process_no_dlq env st job

/-- When process_job raises a non-validation error and the three identifiers
are recoverable as strings from the re-unwrapped body, the worker iteration
writes FAILED for both task ids. -/
theorem worker_failed_marks (env : Env) (st : Store) (job : Payload)
    (err : PErr) (aj : Payload) (p t s : String)
    (hres : (process_job env st job).res = Except.error err)
    (hnv : err.is_validation_error = false)
    (hun : unwrap_for_status env.loads job = some aj)
    (hp : List.lookup "parent_id" aj = some (JVal.str p))
    (ht : List.lookup "tts_task_id" aj = some (JVal.str t))
    (hs : List.lookup "srt_task_id" aj = some (JVal.str s)) :
    Event.statusWrite p t "FAILED" none ∈ (worker_loop_iter env st job).events ∧
    Event.statusWrite p s "FAILED" none ∈ (worker_loop_iter env st job).events := by
  unfold worker_loop_iter
  try dsimp only
  rw [hres]
  cases err with
  | pvalid m r => simp [PErr.is_validation_error] at hnv
  | typeError =>
    dsimp only
    rw [hun]
    dsimp only
    rw [hp, ht, hs]
    exact ⟨by simp, by simp⟩
  | synthFail =>
    dsimp only
    rw [hun]
    dsimp only
    rw [hp, ht, hs]
    exact ⟨by simp, by simp⟩
  | uploadFail =>
    dsimp only
    rw [hun]
    dsimp only
    rw [hp, ht, hs]
    exact ⟨by simp, by simp⟩

/-- C2 amended: the worker loop never sends a dead-letter entry: no
dead-letter queue exists in the code. When processing fails with an error
other than the ValidationError and the identifiers are recoverable, it
marks both task ids FAILED, logs, and moves on. -/
theorem c2_failed_no_dlq (env : Env) (st : Store) (job : Payload) :
    Event.dlqSend ∉ (worker_loop_iter env st job).events ∧
    (∀ err aj p t s, (process_job env st job).res = Except.error err →
      err.is_validation_error = false →
      unwrap_for_status env.loads job = some aj →
      List.lookup "parent_id" aj = some (JVal.str p) →
      List.lookup "tts_task_id" aj = some (JVal.str t) →
      List.lookup "srt_task_id" aj = some (JVal.str s) →
      Event.statusWrite p t "FAILED" none ∈ (worker_loop_iter env st job).events ∧
      Event.statusWrite p s "FAILED" none ∈ (worker_loop_iter env st job).events) :=
  ⟨worker_no_dlq env st job,
   fun err aj p t s h1 h2 h3 h4 h5 h6 =>
     worker_failed_marks env st job err aj p t s h1 h2 h3 h4 h5 h6⟩

/-- Applies the no-dead-letter property at a concrete failing upload. -/
theorem c2_witness :
    Event.dlqSend ∉ (worker_loop_iter env_upload_fail store0 job_demo).events ∧
    Event.statusWrite "p" "t" "FAILED" none ∈
      (worker_loop_iter env_upload_fail store0 job_demo).events :=
  ⟨(c2_failed_no_dlq env_upload_fail store0 job_demo).1,
   ((c2_failed_no_dlq env_upload_fail store0 job_demo).2 PErr.uploadFail
     job_demo "p" "t" "s" rfl rfl rfl rfl rfl rfl).1⟩

/-- C9: in every run of process_job, the audio upload strictly precedes the
subtitle upload, every COMPLETED status write comes strictly after both
uploads, a failing upload makes process_job raise with no COMPLETED write in
the whole trace, and on an upload failure the worker marks both recovered
task ids FAILED. -/
theorem c9_upload_order (env : Env) (st : Store) (job : Payload) :
    preceded_by isUploadAudioE isUploadSubsE false (process_job env st job).events = true ∧
    preceded_by isUploadAudioE isCompletedWriteE false (process_job env st job).events = true ∧
    preceded_by isUploadSubsE isCompletedWriteE false (process_job env st job).events = true ∧
    (Event.uploadAudio ∈ (process_job env st job).events →
      env.upload_audio_ok = false →
      (process_job env st job).res = Except.error PErr.uploadFail ∧
      (process_job env st job).events.any isCompletedWriteE = false) ∧
    (Event.uploadSubs ∈ (process_job env st job).events →
      env.upload_subs_ok = false →
      (process_job env st job).res = Except.error PErr.uploadFail ∧
      (process_job env st job).events.any isCompletedWriteE = false) ∧
    (∀ aj p t s, (process_job env st job).res = Except.error PErr.uploadFail →
      unwrap_for_status env.loads job = some aj →
      List.lookup "parent_id" aj = some (JVal.str p) →
      List.lookup "tts_task_id" aj = some (JVal.str t) →
      List.lookup "srt_task_id" aj = some (JVal.str s) →
      Event.statusWrite p t "FAILED" none ∈ (worker_loop_iter env st job).events ∧
      Event.statusWrite p s "FAILED" none ∈ (worker_loop_iter env st job).events) := by
  refine ⟨?_, ?_, ?_, ?_, ?_, ?_⟩
  · rcases process_job_shape env st job with h | ⟨p, t, h⟩ | ⟨p, t, s, h⟩ |
      ⟨p, t, s, h⟩ | ⟨p, t, s, al, hal, h, -, -⟩ | ⟨p, t, s, al, hal, h, -, -, -⟩ |
      ⟨p, t, s, al, u1, u2, hal, h, -, -, -⟩
    · rw [h]; rfl
    · rw [h]; rfl
    · rw [h]; rfl
    · rw [h]; rfl
    · rcases hal with rfl | rfl <;> rw [h] <;> rfl
    · rcases hal with rfl | rfl <;> rw [h] <;> rfl
    · rcases hal with rfl | rfl <;> rw [h] <;> rfl
  · rcases process_job_shape env st job with h | ⟨p, t, h⟩ | ⟨p, t, s, h⟩ |
      ⟨p, t, s, h⟩ | ⟨p, t, s, al, hal, h, -, -⟩ | ⟨p, t, s, al, hal, h, -, -, -⟩ |
      ⟨p, t, s, al, u1, u2, hal, h, -, -, -⟩
    · rw [h]; rfl
    · rw [h]; rfl
    · rw [h]; rfl
    · rw [h]; rfl
    · rcases hal with rfl | rfl <;> rw [h] <;> rfl
    · rcases hal with rfl | rfl <;> rw [h] <;> rfl
    · rcases hal with rfl | rfl <;> rw [h] <;> rfl
  · rcases process_job_shape env st job with h | ⟨p, t, h⟩ | ⟨p, t, s, h⟩ |
      ⟨p, t, s, h⟩ | ⟨p, t, s, al, hal, h, -, -⟩ | ⟨p, t, s, al, hal, h, -, -, -⟩ |
      ⟨p, t, s, al, u1, u2, hal, h, -, -, -⟩
    · rw [h]; rfl
    · rw [h]; rfl
    · rw [h]; rfl
    · rw [h]; rfl
    · rcases hal with rfl | rfl <;> rw [h] <;> rfl
    · rcases hal with rfl | rfl <;> rw [h] <;> rfl
    · rcases hal with rfl | rfl <;> rw [h] <;> rfl
  · intro hmem hflag
    rcases process_job_shape env st job with h | ⟨p, t, h⟩ | ⟨p, t, s, h⟩ |
      ⟨p, t, s, h⟩ | ⟨p, t, s, al, hal, h, hfa, hres⟩ |
      ⟨p, t, s, al, hal, h, hfa, hfs, hres⟩ |
      ⟨p, t, s, al, u1, u2, hal, h, hfa, hfs, hres⟩
    · rw [h] at hmem; simp at hmem
    · rw [h] at hmem; simp at hmem
    · rw [h] at hmem; simp at hmem
    · rw [h] at hmem; simp at hmem
    · refine ⟨hres, ?_⟩
      rcases hal with rfl | rfl <;> rw [h] <;> rfl
    · rw [hfa] at hflag
      exact absurd hflag (by decide)
    · rw [hfa] at hflag
      exact absurd hflag (by decide)
  · intro hmem hflag
    rcases process_job_shape env st job with h | ⟨p, t, h⟩ | ⟨p, t, s, h⟩ |
      ⟨p, t, s, h⟩ | ⟨p, t, s, al, hal, h, hfa, hres⟩ |
      ⟨p, t, s, al, hal, h, hfa, hfs, hres⟩ |
      ⟨p, t, s, al, u1, u2, hal, h, hfa, hfs, hres⟩
    · rw [h] at hmem; simp at hmem
    · rw [h] at hmem; simp at hmem
    · rw [h] at hmem; simp at hmem
    · rw [h] at hmem; simp at hmem
    · rcases hal with rfl | rfl <;> rw [h] at hmem <;> simp at hmem
    · refine ⟨hres, ?_⟩
      rcases hal with rfl | rfl <;> rw [h] <;> rfl
    · rw [hfs] at hflag
      exact absurd hflag (by decide)
  · intro aj p t s hres hun hp ht hs
    exact worker_failed_marks env st job PErr.uploadFail aj p t s hres rfl
      hun hp ht hs

/-- Applies the upload-ordering theorem at a failing audio upload: the job
is reported failed and no COMPLETED write happens. -/
theorem c9_witness :
    (process_job env_upload_fail store0 job_demo).res =
      Except.error PErr.uploadFail ∧
    (process_job env_upload_fail store0 job_demo).events.any
      isCompletedWriteE = false :=
  (c9_upload_order env_upload_fail store0 job_demo).2.2.2.1 (by decide) rfl
